import Mathlib

/-!
Shallow embedding of `purchasing/opportunities/views.py` (the beacon
blueprint of the pittsburgh-purchasing-suite) and proofs about the
behaviour of its handlers: signup category collection, unsubscribe
management, browse/detail publication filtering, document upload routing
and opportunity build/update.

Python values that flow through the handlers are modelled by `PyVal`;
a Python runtime error (AttributeError on `None`, KeyError from
`dict.pop`) is modelled by `Except.error`.  Python dicts are modelled as
association lists with `dictGet` / `dictSet` / `dictErase`.
-/

set_option autoImplicit false

namespace Beacon

/-- A Python runtime error raised by the handler code. -/
inductive PyErr where
  | attributeError
  | keyError
deriving Repr, DecidableEq

/-- An uploaded file object (werkzeug `FileStorage`): the only attribute the
handlers read is `filename`. -/
structure FileObj where
  filename : String
deriving Repr, DecidableEq

/-- A Python value appearing in the form-data dictionaries of the views. -/
inductive PyVal where
  | none
  | str (s : String)
  | nat (n : Nat)
  | file (f : FileObj)
deriving Repr, DecidableEq

/-- The slice of `current_app.config` read by `upload_document`:
`UPLOAD_S3` and `UPLOAD_DESTINATION`. -/
structure Config where
  uploadS3 : Bool
  uploadDestination : String
deriving Repr, DecidableEq

/-- `os.path.join(dest, filename)` for a sanitized (relative) filename. -/
def joinPath (a b : String) : String := a ++ "/" ++ b

/-- `_id = _id if _id else random_id(6)` (views.py line 212): Python
truthiness, so both `None` and `0` are replaced by the random id. -/
def defaultId (id? : Option Nat) (rnd : Nat) : Nat :=
  match id? with
  | Option.some n => if n = 0 then rnd else n
  | Option.none => rnd

/-- `upload_document(document, _id=None)` (views.py lines 210-233).
`secure` abstracts werkzeug's `secure_filename`, `genUrl` abstracts
`Key.generate_url`, `rnd` abstracts `random_id(6)`; all are external
collaborators.  Line 211 reads `document.filename` before the
`document is None` test on line 214, so a non-file value (in particular
`None`) raises AttributeError. -/
def uploadDocument (cfg : Config) (secure genUrl : String → String) (rnd : Nat)
    (document : PyVal) (id? : Option Nat) : Except PyErr (PyVal × PyVal) :=
  match document with
  | PyVal.file f =>
    let filename := secure f.filename
    let i := defaultId id? rnd
    if filename = "" then
      Except.ok (PyVal.none, PyVal.none)
    else if cfg.uploadS3 then
      let key := "opportunity-" ++ toString i ++ ".pdf"
      Except.ok (PyVal.str key, PyVal.str (genUrl key))
    else
      Except.ok (PyVal.str filename, PyVal.str (joinPath cfg.uploadDestination filename))
  | _ => Except.error PyErr.attributeError

/-! ### Python dict model

The wholesale attribute dictionaries the views pass around are modelled
as association lists with unique-key dict semantics: `dictGet` is
`d.get(k)` / `d[k]`, `dictSet` is `d[k] = v`, `dictErase` is the removal
performed by `d.pop(k)`. -/

def dictGet : List (String × PyVal) → String → Option PyVal
  | [], _ => Option.none
  | p :: rest, k => if p.1 = k then Option.some p.2 else dictGet rest k

def dictSet : List (String × PyVal) → String → PyVal → List (String × PyVal)
  | [], k, v => [(k, v)]
  | p :: rest, k, v => if p.1 = k then (k, v) :: rest else p :: dictSet rest k v

def dictErase : List (String × PyVal) → String → List (String × PyVal)
  | [], _ => []
  | p :: rest, k => if p.1 = k then dictErase rest k else p :: dictErase rest k

/-- `d.update(kvs)`: set every pair of `kvs` in order. -/
def dictUpdate (d kvs : List (String × PyVal)) : List (String × PyVal) :=
  kvs.foldl (fun acc kv => dictSet acc kv.1 kv.2) d

theorem dictGet_dictSet_self (d : List (String × PyVal)) (k : String) (v : PyVal) :
    dictGet (dictSet d k v) k = Option.some v := by
  induction d with
  | nil => simp [dictSet, dictGet]
  | cons p rest ih =>
    by_cases h : p.1 = k
    · simp [dictSet, dictGet, h]
    · simp [dictSet, dictGet, h, ih]

theorem dictGet_dictSet_ne (d : List (String × PyVal)) (k k' : String) (v : PyVal)
    (h : k' ≠ k) : dictGet (dictSet d k v) k' = dictGet d k' := by
  induction d with
  | nil => simp [dictSet, dictGet, Ne.symm h]
  | cons p rest ih =>
    rw [dictSet]
    by_cases hp : p.1 = k
    · rw [if_pos hp, dictGet, dictGet, if_neg (Ne.symm h),
        if_neg (show ¬p.1 = k' by rw [hp]; exact Ne.symm h)]
    · rw [if_neg hp, dictGet, dictGet, ih]

theorem dictGet_dictErase_self (d : List (String × PyVal)) (k : String) :
    dictGet (dictErase d k) k = Option.none := by
  induction d with
  | nil => simp [dictErase, dictGet]
  | cons p rest ih =>
    by_cases h : p.1 = k
    · simp [dictErase, h, ih]
    · simp [dictErase, dictGet, h, ih]

theorem dictGet_dictErase_ne (d : List (String × PyVal)) (k k' : String)
    (h : k' ≠ k) : dictGet (dictErase d k) k' = dictGet d k' := by
  induction d with
  | nil => simp [dictErase]
  | cons p rest ih =>
    rw [dictErase]
    by_cases hp : p.1 = k
    · rw [if_pos hp, ih, dictGet,
        if_neg (show ¬p.1 = k' by rw [hp]; exact Ne.symm h)]
    · rw [if_neg hp, dictGet, dictGet, ih]

/-- The first row matching a predicate: SQLAlchemy's
`query.filter(...).first()` and `query.get(id)`, returning the Python
`None` (here `Option.none`) when nothing matches. -/
def firstWhere {α : Type} (p : α → Bool) : List α → Option α
  | [] => Option.none
  | x :: rest => if p x then Option.some x else firstWhere p rest

theorem firstWhere_some {α : Type} (p : α → Bool) (l : List α) (a : α)
    (h : firstWhere p l = Option.some a) : p a = true := by
  induction l with
  | nil => cases h
  | cons x rest ih =>
    rw [firstWhere] at h
    by_cases hx : p x = true
    · rw [if_pos hx] at h
      injection h with h
      subst h
      exact hx
    · rw [if_neg hx] at h
      exact ih h

/-! ### Signup: subcategory collection (views.py lines 64-79) -/

/-- A `Category` row: `(id, category, subcategory)`. -/
structure Category where
  id : Nat
  category : String
  subcategory : String
deriving Repr, DecidableEq

/-- One entry of `request.form` as seen by the signup loop: either a
dynamically named `subcategories-<id>` field carrying its checkbox value,
or any other form field (skipped by the loop's `continue`). -/
inductive FormField where
  | subcategory (id : Nat) (value : String)
  | other
deriving Repr, DecidableEq

/-- The manual iteration of `request.form.iteritems()` in `signup`
(views.py lines 64-79): skip non-`subcategories-` keys; for a checked
(`'on'`) id not seen before, record it in the `subcats` set and look the
`Category` up, raising `ValidationError('{} is not a valid choice!'
.format(subcat))` — note that `subcat` is `None` at that point — when the
lookup fails, else appending the record to `form_data['categories']`. -/
def collectSubcats (catDb : List Category) :
    List FormField → Finset Nat → Except String (List Category)
  | [], _ => Except.ok []
  | FormField.other :: rest, seen => collectSubcats catDb rest seen
  | FormField.subcategory i v :: rest, seen =>
    if v = "on" ∧ i ∉ seen then
      match firstWhere (fun c => c.id == i) catDb with
      | Option.none => Except.error "None is not a valid choice!"
      | Option.some c =>
        match collectSubcats catDb rest (insert i seen) with
        | Except.ok cats => Except.ok (c :: cats)
        | Except.error e => Except.error e
    else collectSubcats catDb rest seen

/-! ### Manage / unsubscribe (views.py lines 147-172) -/

/-- A `Vendor` row, reduced to what `manage` reads: the unique email and
the set of subscribed category ids. -/
structure Vendor where
  email : String
  categories : Finset Nat
deriving DecidableEq

/-- A validated `manage` POST: the submitted email, the raw `button`
field, and the checked subscription ids (`form.subscriptions.data`). -/
structure ManageReq where
  email : String
  button : String
  subscriptions : Finset Nat
deriving DecidableEq

/-- What the rendered `manage.html` shows: inline email errors, whether
the success message was flashed, and the subscription choices offered. -/
structure ManageRender where
  emailErrors : List String
  flashed : Bool
  choices : Finset Nat
deriving DecidableEq

/-- Python `str.lower()` on the button value, as a structural map over
the characters. -/
def pyLower (s : String) : String := ⟨s.data.map Char.toLower⟩

/-- Persist a new category set for the vendor with the given (unique)
email: `vendor.categories = [...]; db.session.commit()`. -/
def updateVendor (db : List Vendor) (email : String) (cats : Finset Nat) :
    List Vendor :=
  db.map (fun w => if w.email = email then ⟨w.email, cats⟩ else w)

/-- The validated-submission path of `manage` (views.py lines 154-172).
When no vendor matches, an inline error is recorded, but the
`'unsubscribe from checked'` branch on line 161 is not guarded by the
vendor check, so pressing the button with an unknown email evaluates
`vendor.categories` on `None`: AttributeError. -/
def manage (db : List Vendor) (req : ManageReq) :
    Except PyErr (List Vendor × ManageRender) :=
  match firstWhere (fun w => w.email == req.email) db with
  | Option.none =>
    if pyLower req.button = "unsubscribe from checked" then
      Except.error PyErr.attributeError
    else
      Except.ok (db, ⟨["We could not find the email " ++ req.email], false, ∅⟩)
  | Option.some v =>
    if pyLower req.button = "unsubscribe from checked" then
      let remaining := v.categories \ req.subscriptions
      Except.ok (updateVendor db req.email remaining, ⟨[], true, remaining⟩)
    else
      Except.ok (db, ⟨[], false, v.categories⟩)

/-! ### Browse and detail (views.py lines 174-208) -/

/-- An `Opportunity` row, reduced to what `browse` and `detail` read.
Dates are day ordinals. -/
structure Opportunity where
  id : Nat
  is_public : Bool
  planned_publish : Nat
  planned_deadline : Nat
deriving Repr, DecidableEq

/-- Modelled from the spec: `Opportunity.is_published` is defined in
`purchasing/opportunities/models.py`, which is not part of the sources;
per the spec it is "true when current time falls within the
opportunity's open publication window (computed from stored
start/deadline fields), independent of `is_public`". -/
def Opportunity.is_published (o : Opportunity) (today : Nat) : Bool :=
  o.planned_publish ≤ today && today ≤ o.planned_deadline

/-- The partition loop of `browse` (views.py lines 183-188): public and
published goes to `active`, public and unpublished to `upcoming`,
non-public to neither. -/
def browseLoop (today : Nat) :
    List Opportunity → List Opportunity × List Opportunity
  | [] => ([], [])
  | o :: rest =>
    let p := browseLoop today rest
    if o.is_public then
      if o.is_published today then (o :: p.1, p.2) else (p.1, o :: p.2)
    else p

/-- `browse` (views.py lines 174-196): query the opportunities whose
`planned_deadline` is today or later, partition them, and hand the
template the triple `(opportunities, active, upcoming)`. -/
def browse (db : List Opportunity) (today : Nat) :
    List Opportunity × List Opportunity × List Opportunity :=
  let opportunities := db.filter (fun o => today ≤ o.planned_deadline)
  let p := browseLoop today opportunities
  (opportunities, p.1, p.2)

/-- The outcome of the `detail` view: a rendered detail page or the
`abort(404)` not-found outcome. -/
inductive DetailResult where
  | rendered (o : Opportunity)
  | notFound
deriving Repr, DecidableEq

/-- `detail` (views.py lines 198-208): fetch by id; render only if the
row exists and `is_public` holds, else `abort(404)`. -/
def detail (db : List Opportunity) (oid : Nat) : DetailResult :=
  match firstWhere (fun o => o.id == oid) db with
  | Option.some o =>
    if o.is_public then DetailResult.rendered o else DetailResult.notFound
  | Option.none => DetailResult.notFound

/-! ### Opportunity build/update (views.py lines 235-257) -/

/-- A `User` row, reduced to what `build_opportunity` touches. -/
structure User where
  id : Nat
  email : PyVal
  role_id : Nat
  department : PyVal
deriving Repr, DecidableEq

/-- A persisted `Opportunity` record as produced by
`Opportunity.create(**data)` / `opportunity.update(**data)`: its id and
its attribute dictionary. -/
structure OppRecord where
  id : Nat
  fields : List (String × PyVal)
deriving Repr, DecidableEq

/-- The contact-resolution step of `build_opportunity` (views.py lines
237-242): the first `User` whose email equals the popped contact email,
or a freshly created placeholder `User` with `role_id=2` (the
non-privileged role), `department` taken from the data, and the next
free id.  Returns the contact together with the resulting user table. -/
def resolveContact (users : List User) (nextUserId : Nat) (ce : PyVal)
    (data1 : List (String × PyVal)) : User × List User :=
  match firstWhere (fun u => u.email == ce) users with
  | Option.some u => (u, users)
  | Option.none =>
    let u : User := ⟨nextUserId, ce, 2, (dictGet data1 "department").getD PyVal.none⟩
    (u, users ++ [u])

/-- The `data.update(dict(contact_id=..., created_by=1, document=...,
document_href=...))` step of `build_opportunity` (views.py lines
248-251). -/
def mergeDocData (d1 : List (String × PyVal)) (cid : Nat) (fn fp : PyVal) :
    List (String × PyVal) :=
  dictSet (dictSet (dictSet (dictSet d1
    "contact_id" (PyVal.nat cid))
    "created_by" (PyVal.nat 1))
    "document" fn)
    "document_href" fp

/-- `build_opportunity(data, opportunity=None)` (views.py lines 235-257).
`data.pop('contact_email')` raises KeyError when the key is missing; the
contact is resolved (or a placeholder created) by `resolveContact`; the
document value (`data.get('document', None)`) is routed through
`upload_document` with the existing opportunity's id (or none); then
`contact_id`, `created_by=1`, `document` and `document_href` are written
into `data`, and the record is updated in place or freshly created (with
id `nextOppId`).  Returns the user table, the mutated `data` dict and
the persisted record. -/
def buildOpportunity (cfg : Config) (secure genUrl : String → String) (rnd : Nat)
    (users : List User) (nextUserId nextOppId : Nat)
    (data : List (String × PyVal)) (opportunity : Option OppRecord) :
    Except PyErr (List User × List (String × PyVal) × OppRecord) :=
  match dictGet data "contact_email" with
  | Option.none => Except.error PyErr.keyError
  | Option.some contact_email =>
    let data1 := dictErase data "contact_email"
    let resolved := resolveContact users nextUserId contact_email data1
    let contact := resolved.1
    let users1 := resolved.2
    match uploadDocument cfg secure genUrl rnd
        ((dictGet data1 "document").getD PyVal.none) (opportunity.map (fun o => o.id)) with
    | Except.error e => Except.error e
    | Except.ok (filename, filepath) =>
      let data2 := mergeDocData data1 contact.id filename filepath
      match opportunity with
      | Option.some o => Except.ok (users1, data2, ⟨o.id, dictUpdate o.fields data2⟩)
      | Option.none => Except.ok (users1, data2, ⟨nextOppId, data2⟩)

/-! ### Upload routing claims -/

/-- C1: `upload_document` is claimed to return `(None, None)` both when no
file is provided (`document is None`) and when the sanitized filename is
empty, in both storage modes.  The code reads `document.filename` on
line 211 before the `document is None` test on line 214, so the
`document = None` calls raise AttributeError in both modes instead; only
the empty-sanitized-filename half behaves as claimed. -/
theorem upload_document_none_crashes :
    (uploadDocument ⟨true, "uploads"⟩ (fun s => s) (fun s => s) 7
        PyVal.none (Option.some 1) = Except.error PyErr.attributeError) ∧
    (uploadDocument ⟨false, "uploads"⟩ (fun s => s) (fun s => s) 7
        PyVal.none (Option.some 1) = Except.error PyErr.attributeError) ∧
    (uploadDocument ⟨true, "uploads"⟩ (fun _ => "") (fun s => s) 7
        (PyVal.file ⟨"a.pdf"⟩) (Option.some 1) = Except.ok (PyVal.none, PyVal.none)) ∧
    (uploadDocument ⟨false, "uploads"⟩ (fun _ => "") (fun s => s) 7
        (PyVal.file ⟨"a.pdf"⟩) (Option.some 1) = Except.ok (PyVal.none, PyVal.none)) :=
  ⟨rfl, rfl, rfl, rfl⟩

/-- C10: in object-storage mode the stored key for the effective
identifier `i` (the given id after the falsy-default of line 212) is
exactly `opportunity-<i>.pdf`, for every sanitized filename that is not
empty, and the sanitized filename only enters the result in local-disk
mode. -/
theorem upload_document_s3_key_ignores_filename (cfg : Config)
    (secure genUrl : String → String) (rnd : Nat) (f : FileObj) (id? : Option Nat)
    (hname : secure f.filename ≠ "") :
    (cfg.uploadS3 = true →
      uploadDocument cfg secure genUrl rnd (PyVal.file f) id? =
        Except.ok (PyVal.str ("opportunity-" ++ toString (defaultId id? rnd) ++ ".pdf"),
          PyVal.str (genUrl ("opportunity-" ++ toString (defaultId id? rnd) ++ ".pdf")))) ∧
    (cfg.uploadS3 = false →
      uploadDocument cfg secure genUrl rnd (PyVal.file f) id? =
        Except.ok (PyVal.str (secure f.filename),
          PyVal.str (joinPath cfg.uploadDestination (secure f.filename)))) := by
  constructor <;> intro hmode <;> simp [uploadDocument, hname, hmode]

/-- Witness for C10 at a concrete upload: identifier 3, original filename
`Original Name.PDF`, identity sanitizer. -/
theorem upload_document_s3_key_ignores_filename_witness :
    ((fun s : String => s) "Original Name.PDF" ≠ "") ∧
    uploadDocument ⟨true, "uploads"⟩ (fun s => s) (fun s => s) 7
        (PyVal.file ⟨"Original Name.PDF"⟩) (Option.some 3) =
      Except.ok (PyVal.str "opportunity-3.pdf", PyVal.str "opportunity-3.pdf") := by
  refine ⟨by decide, ?_⟩
  exact (upload_document_s3_key_ignores_filename ⟨true, "uploads"⟩
    (fun s => s) (fun s => s) 7 ⟨"Original Name.PDF"⟩ (Option.some 3) (by decide)).1 rfl

/-! ### Manage / unsubscribe claims -/

/-- C2: a manage submission whose email matches no vendor is claimed to
render the form with an inline error for every combination of the other
fields, including a pressed `unsubscribe from checked` button.  The
button branch on line 161 is not guarded by the vendor check, so that
combination evaluates `vendor.categories` on `None` and raises
AttributeError; only the button-not-pressed combination renders the
inline error. -/
theorem manage_missing_vendor_crashes :
    (manage [] ⟨"a@x.com", "unsubscribe from checked", ∅⟩
      = Except.error PyErr.attributeError) ∧
    (manage [] ⟨"a@x.com", "", ∅⟩
      = Except.ok ([], ⟨["We could not find the email a@x.com"], false, ∅⟩)) :=
  ⟨rfl, rfl⟩

/-! ### Signup claims -/

/-- C3: a checked subcategory identifier that resolves to no `Category`
is claimed to fail validation with an error naming the offending
identifier.  Validation does fail, but line 78 formats the failed lookup
result (`None`) rather than `subcat_id`, so the message is the constant
`None is not a valid choice!` whatever the identifier was. -/
theorem signup_invalid_subcategory_error_names_none :
    (collectSubcats ([] : List Category) [FormField.subcategory 42 "on"] ∅
      = Except.error "None is not a valid choice!") ∧
    (collectSubcats ([] : List Category) [FormField.subcategory 99 "on"] ∅
      = Except.error "None is not a valid choice!") :=
  ⟨rfl, rfl⟩

theorem collectSubcats_ids_nodup (catDb : List Category) (fields : List FormField)
    (seen : Finset Nat) (cats : List Category)
    (h : collectSubcats catDb fields seen = Except.ok cats) :
    (∀ c ∈ cats, c.id ∉ seen) ∧ (cats.map (fun c => c.id)).Nodup := by
  induction fields generalizing seen cats with
  | nil =>
    rw [collectSubcats] at h
    injection h with h
    subst h
    simp
  | cons fld rest ih =>
    cases fld with
    | other => exact ih seen cats h
    | subcategory i v =>
      rw [collectSubcats] at h
      by_cases hg : v = "on" ∧ i ∉ seen
      · rw [if_pos hg] at h
        cases hfind : firstWhere (fun c => c.id == i) catDb with
        | none => rw [hfind] at h; cases h
        | some c =>
          rw [hfind] at h
          cases hrec : collectSubcats catDb rest (insert i seen) with
          | error e => rw [hrec] at h; cases h
          | ok cats' =>
            rw [hrec] at h
            injection h with h
            subst h
            obtain ⟨h1, h2⟩ := ih (insert i seen) cats' hrec
            have hcid : c.id = i := by
              have := firstWhere_some _ _ _ hfind
              simpa using this
            refine ⟨?_, ?_⟩
            · intro c' hc'
              rcases List.mem_cons.mp hc' with h' | h'
              · subst h'; rw [hcid]; exact hg.2
              · intro habs
                exact h1 c' h' (Finset.mem_insert_of_mem habs)
            · simp only [List.map_cons, List.nodup_cons]
              refine ⟨?_, h2⟩
              intro habs
              rcases List.mem_map.mp habs with ⟨c', hc', he⟩
              apply h1 c' hc'
              rw [he, hcid]
              exact Finset.mem_insert_self i seen
      · rw [if_neg hg] at h
        exact ih seen cats h

/-- C7: duplicate checked subcategory identifiers collapse to a single
membership entry: the category list a signup submission produces carries
each subcategory id at most once, however often it was submitted. -/
theorem signup_duplicate_subcategories_collapse (catDb : List Category)
    (fields : List FormField) (cats : List Category)
    (h : collectSubcats catDb fields ∅ = Except.ok cats) :
    (cats.map (fun c => c.id)).Nodup :=
  (collectSubcats_ids_nodup catDb fields ∅ cats h).2

/-- Witness for C7: the same checked subcategory submitted twice yields a
single membership entry. -/
theorem signup_duplicate_subcategories_collapse_witness :
    (collectSubcats [⟨7, "Apples", "Gala"⟩]
        [FormField.subcategory 7 "on", FormField.subcategory 7 "on"] ∅
      = Except.ok [⟨7, "Apples", "Gala"⟩]) ∧
    (([⟨7, "Apples", "Gala"⟩] : List Category).map (fun c => c.id)).Nodup :=
  ⟨rfl, signup_duplicate_subcategories_collapse [⟨7, "Apples", "Gala"⟩]
    [FormField.subcategory 7 "on", FormField.subcategory 7 "on"]
    [⟨7, "Apples", "Gala"⟩] rfl⟩

theorem updateVendor_cons (w : Vendor) (rest : List Vendor) (e : String)
    (cats : Finset Nat) :
    updateVendor (w :: rest) e cats
      = (if w.email = e then (⟨w.email, cats⟩ : Vendor) else w)
          :: updateVendor rest e cats := rfl

theorem firstWhere_updateVendor (db : List Vendor) (e : String) (cats : Finset Nat)
    (v : Vendor) (h : firstWhere (fun w => w.email == e) db = Option.some v) :
    firstWhere (fun w => w.email == e) (updateVendor db e cats)
      = Option.some ⟨v.email, cats⟩ := by
  induction db with
  | nil => cases h
  | cons w rest ih =>
    rw [updateVendor_cons]
    rw [firstWhere] at h
    by_cases hw : w.email = e
    · rw [if_pos (show ((fun x : Vendor => x.email == e) w) = true by simp [hw])] at h
      injection h with h
      subst h
      rw [if_pos hw, firstWhere,
        if_pos (show ((fun x : Vendor => x.email == e) ⟨w.email, cats⟩) = true by simp [hw])]
    · rw [if_neg (show ¬ ((fun x : Vendor => x.email == e) w) = true by simp [hw])] at h
      rw [if_neg hw, firstWhere,
        if_neg (show ¬ ((fun x : Vendor => x.email == e) w) = true by simp [hw])]
      exact ih h

theorem updateVendor_twice (db : List Vendor) (e : String) (cats : Finset Nat) :
    updateVendor (updateVendor db e cats) e cats = updateVendor db e cats := by
  unfold updateVendor
  rw [List.map_map]
  apply List.map_congr_left
  intro w _
  by_cases hw : w.email = e
  · simp [hw]
  · simp [hw]

/-- C4: when the unsubscribe button is pressed by a vendor that exists,
the persisted subscription set is exactly the set difference
`before − requested removals`, and re-running the identical removal
request against the updated store changes nothing (idempotence). -/
theorem manage_unsubscribe_set_difference (db : List Vendor) (req : ManageReq)
    (v : Vendor)
    (hfind : firstWhere (fun w => w.email == req.email) db = Option.some v)
    (hbtn : pyLower req.button = "unsubscribe from checked") :
    manage db req
      = Except.ok (updateVendor db req.email (v.categories \ req.subscriptions),
          ⟨[], true, v.categories \ req.subscriptions⟩) ∧
    firstWhere (fun w => w.email == req.email)
        (updateVendor db req.email (v.categories \ req.subscriptions))
      = Option.some ⟨v.email, v.categories \ req.subscriptions⟩ ∧
    manage (updateVendor db req.email (v.categories \ req.subscriptions)) req
      = Except.ok (updateVendor db req.email (v.categories \ req.subscriptions),
          ⟨[], true, v.categories \ req.subscriptions⟩) := by
  have hfind' := firstWhere_updateVendor db req.email (v.categories \ req.subscriptions) v hfind
  refine ⟨?_, hfind', ?_⟩
  · simp [manage, hfind, hbtn]
  · simp only [manage, hfind', hbtn, if_pos, sdiff_idem, updateVendor_twice]

/-- Witness for C4: vendor subscribed to `{1, 2}` unsubscribes from `{2}`;
the persisted set is `{1}` and the rerun is a no-op. -/
theorem manage_unsubscribe_set_difference_witness :
    (firstWhere (fun w => w.email == "a@x.com") ([⟨"a@x.com", {1, 2}⟩] : List Vendor)
      = Option.some ⟨"a@x.com", {1, 2}⟩) ∧
    (pyLower "unsubscribe from checked" = "unsubscribe from checked") ∧
    (manage [⟨"a@x.com", {1, 2}⟩] ⟨"a@x.com", "unsubscribe from checked", {2}⟩
      = Except.ok (updateVendor [⟨"a@x.com", {1, 2}⟩] "a@x.com" ({1, 2} \ {2}),
          ⟨[], true, {1, 2} \ {2}⟩)) ∧
    (manage (updateVendor [⟨"a@x.com", {1, 2}⟩] "a@x.com" ({1, 2} \ {2}))
        ⟨"a@x.com", "unsubscribe from checked", {2}⟩
      = Except.ok (updateVendor [⟨"a@x.com", {1, 2}⟩] "a@x.com" ({1, 2} \ {2}),
          ⟨[], true, {1, 2} \ {2}⟩)) := by
  have h := manage_unsubscribe_set_difference [⟨"a@x.com", {1, 2}⟩]
    ⟨"a@x.com", "unsubscribe from checked", {2}⟩ ⟨"a@x.com", {1, 2}⟩ rfl rfl
  exact ⟨rfl, rfl, h.1, h.2.2⟩

/-! ### Browse / detail claims -/

theorem browseLoop_active_eq (today : Nat) (l : List Opportunity) :
    (browseLoop today l).1
      = l.filter (fun o => o.is_public && o.is_published today) := by
  induction l with
  | nil => rfl
  | cons x rest ih =>
    by_cases hx : x.is_public = true
    · by_cases hp : x.is_published today = true
      · simp [browseLoop, hx, hp, ih, List.filter_cons]
      · simp [browseLoop, hx, hp, ih, List.filter_cons]
    · simp [browseLoop, hx, ih, List.filter_cons]

theorem browseLoop_upcoming_eq (today : Nat) (l : List Opportunity) :
    (browseLoop today l).2
      = l.filter (fun o => o.is_public && !(o.is_published today)) := by
  induction l with
  | nil => rfl
  | cons x rest ih =>
    by_cases hx : x.is_public = true
    · by_cases hp : x.is_published today = true
      · simp [browseLoop, hx, hp, ih, List.filter_cons]
      · simp [browseLoop, hx, hp, ih, List.filter_cons]
    · simp [browseLoop, hx, ih, List.filter_cons]

/-- C5: on the deadline-filtered input, `browse` sends every public
opportunity whose publication window is open to `active`, every public
one whose window is not open to `upcoming`, and no opportunity to
both. -/
theorem browse_partitions_disjointly (db : List Opportunity) (today : Nat) :
    (∀ o ∈ (browse db today).1, o.is_public = true →
      ((o.is_published today = true → o ∈ (browse db today).2.1) ∧
       (o.is_published today = false → o ∈ (browse db today).2.2))) ∧
    (∀ o : Opportunity,
      ¬(o ∈ (browse db today).2.1 ∧ o ∈ (browse db today).2.2)) := by
  have hact : (browse db today).2.1
      = (db.filter (fun o => today ≤ o.planned_deadline)).filter
          (fun o => o.is_public && o.is_published today) := by
    simp [browse, browseLoop_active_eq]
  have hupc : (browse db today).2.2
      = (db.filter (fun o => today ≤ o.planned_deadline)).filter
          (fun o => o.is_public && !(o.is_published today)) := by
    simp [browse, browseLoop_upcoming_eq]
  constructor
  · intro o hmem hpub
    have hmem' : o ∈ db.filter (fun o => today ≤ o.planned_deadline) := hmem
    constructor <;> intro hp
    · rw [hact]
      exact List.mem_filter.mpr ⟨hmem', by simp [hpub, hp]⟩
    · rw [hupc]
      exact List.mem_filter.mpr ⟨hmem', by simp [hpub, hp]⟩
  · intro o ⟨ha, hu⟩
    rw [hact] at ha
    rw [hupc] at hu
    have h1 := (List.mem_filter.mp ha).2
    have h2 := (List.mem_filter.mp hu).2
    simp at h1 h2
    exact absurd h1.2 (by simp [h2.2])

/-- Witness for C5: a public opportunity with an open window lands in
`active` and not in `upcoming`. -/
theorem browse_partitions_disjointly_witness :
    ((⟨1, true, 0, 10⟩ : Opportunity) ∈ (browse [⟨1, true, 0, 10⟩] 5).1) ∧
    ((⟨1, true, 0, 10⟩ : Opportunity) ∈ (browse [⟨1, true, 0, 10⟩] 5).2.1) ∧
    ¬((⟨1, true, 0, 10⟩ : Opportunity) ∈ (browse [⟨1, true, 0, 10⟩] 5).2.1 ∧
      (⟨1, true, 0, 10⟩ : Opportunity) ∈ (browse [⟨1, true, 0, 10⟩] 5).2.2) := by
  have h := browse_partitions_disjointly [⟨1, true, 0, 10⟩] 5
  refine ⟨by decide, ?_, ?_⟩
  · exact (h.1 ⟨1, true, 0, 10⟩ (by decide) rfl).1 rfl
  · exact h.2 ⟨1, true, 0, 10⟩

/-- C6: an opportunity with `is_public = false` is in neither browse
partition (whatever its window), and its detail lookup yields the very
same not-found outcome as a lookup of an id with no opportunity at
all. -/
theorem private_opportunity_hidden (db : List Opportunity) (today : Nat)
    (o : Opportunity) (oid oid' : Nat) (hpriv : o.is_public = false) :
    (o ∉ (browse db today).2.1 ∧ o ∉ (browse db today).2.2) ∧
    (firstWhere (fun x => x.id == oid) db = Option.some o →
      firstWhere (fun x => x.id == oid') db = Option.none →
      detail db oid = DetailResult.notFound ∧
      detail db oid' = DetailResult.notFound ∧
      detail db oid = detail db oid') := by
  constructor
  · constructor <;> intro hmem
    · have := (List.mem_filter.mp (by
        rw [show (browse db today).2.1
            = (db.filter (fun o => today ≤ o.planned_deadline)).filter
                (fun o => o.is_public && o.is_published today) by
          simp [browse, browseLoop_active_eq]] at hmem
        exact hmem)).2
      simp [hpriv] at this
    · have := (List.mem_filter.mp (by
        rw [show (browse db today).2.2
            = (db.filter (fun o => today ≤ o.planned_deadline)).filter
                (fun o => o.is_public && !(o.is_published today)) by
          simp [browse, browseLoop_upcoming_eq]] at hmem
        exact hmem)).2
      simp [hpriv] at this
  · intro hfound hmissing
    refine ⟨?_, ?_, ?_⟩
    · simp [detail, hfound, hpriv]
    · simp [detail, hmissing]
    · simp [detail, hfound, hmissing, hpriv]

/-- Witness for C6: a private opportunity with an open window is hidden
from browse, and its detail outcome coincides with that of an absent
id. -/
theorem private_opportunity_hidden_witness :
    ((⟨1, false, 0, 10⟩ : Opportunity) ∉ (browse [⟨1, false, 0, 10⟩] 5).2.1) ∧
    (detail [⟨1, false, 0, 10⟩] 1 = DetailResult.notFound) ∧
    (detail [⟨1, false, 0, 10⟩] 2 = DetailResult.notFound) ∧
    (detail [⟨1, false, 0, 10⟩] 1 = detail [⟨1, false, 0, 10⟩] 2) := by
  have h := private_opportunity_hidden [⟨1, false, 0, 10⟩] 5 ⟨1, false, 0, 10⟩ 1 2 rfl
  have h2 := h.2 rfl rfl
  exact ⟨h.1.1, h2.1, h2.2.1, h2.2.2⟩

/-! ### Build/update claims -/

theorem uploadDocument_file_ok (cfg : Config) (secure genUrl : String → String)
    (rnd : Nat) (f : FileObj) (id? : Option Nat) :
    ∃ p, uploadDocument cfg secure genUrl rnd (PyVal.file f) id? = Except.ok p := by
  unfold uploadDocument
  by_cases h1 : secure f.filename = "" <;> by_cases h2 : cfg.uploadS3 = true <;>
    simp [h1, h2]

theorem mergeDocData_get (d1 : List (String × PyVal)) (cid : Nat) (fn fp : PyVal) :
    dictGet (mergeDocData d1 cid fn fp) "contact_id" = Option.some (PyVal.nat cid) ∧
    dictGet (mergeDocData d1 cid fn fp) "created_by" = Option.some (PyVal.nat 1) ∧
    dictGet (mergeDocData d1 cid fn fp) "document" = Option.some fn ∧
    dictGet (mergeDocData d1 cid fn fp) "document_href" = Option.some fp ∧
    ∀ k, k ≠ "contact_id" → k ≠ "created_by" → k ≠ "document" →
      k ≠ "document_href" → dictGet (mergeDocData d1 cid fn fp) k = dictGet d1 k := by
  unfold mergeDocData
  refine ⟨?_, ?_, ?_, ?_, ?_⟩
  · rw [dictGet_dictSet_ne _ _ _ _ (by decide), dictGet_dictSet_ne _ _ _ _ (by decide),
      dictGet_dictSet_ne _ _ _ _ (by decide), dictGet_dictSet_self]
  · rw [dictGet_dictSet_ne _ _ _ _ (by decide), dictGet_dictSet_ne _ _ _ _ (by decide),
      dictGet_dictSet_self]
  · rw [dictGet_dictSet_ne _ _ _ _ (by decide), dictGet_dictSet_self]
  · rw [dictGet_dictSet_self]
  · intro k h1 h2 h3 h4
    rw [dictGet_dictSet_ne _ _ _ _ h4, dictGet_dictSet_ne _ _ _ _ h3,
      dictGet_dictSet_ne _ _ _ _ h2, dictGet_dictSet_ne _ _ _ _ h1]

theorem buildOpportunity_ok_form (cfg : Config) (secure genUrl : String → String)
    (rnd : Nat) (users : List User) (nextUserId nextOppId : Nat)
    (data : List (String × PyVal)) (opportunity : Option OppRecord)
    (ce : PyVal) (f : FileObj)
    (hce : dictGet data "contact_email" = Option.some ce)
    (hdoc : dictGet (dictErase data "contact_email") "document"
      = Option.some (PyVal.file f)) :
    ∃ fn fp,
      uploadDocument cfg secure genUrl rnd (PyVal.file f)
          (opportunity.map (fun o => o.id)) = Except.ok (fn, fp) ∧
      buildOpportunity cfg secure genUrl rnd users nextUserId nextOppId data opportunity
        = Except.ok
            ((resolveContact users nextUserId ce (dictErase data "contact_email")).2,
             mergeDocData (dictErase data "contact_email")
               (resolveContact users nextUserId ce (dictErase data "contact_email")).1.id
               fn fp,
             match opportunity with
             | Option.some o =>
               ⟨o.id, dictUpdate o.fields
                 (mergeDocData (dictErase data "contact_email")
                   (resolveContact users nextUserId ce
                     (dictErase data "contact_email")).1.id fn fp)⟩
             | Option.none =>
               ⟨nextOppId,
                mergeDocData (dictErase data "contact_email")
                  (resolveContact users nextUserId ce
                    (dictErase data "contact_email")).1.id fn fp⟩) := by
  obtain ⟨⟨fn, fp⟩, hup⟩ := uploadDocument_file_ok cfg secure genUrl rnd f
    (opportunity.map (fun o => o.id))
  refine ⟨fn, fp, hup, ?_⟩
  simp only [buildOpportunity, hce, hdoc, Option.getD_some, hup]
  cases opportunity <;> rfl

theorem buildOpportunity_success_shape (cfg : Config)
    (secure genUrl : String → String) (rnd : Nat) (users : List User)
    (nextUserId nextOppId : Nat) (data : List (String × PyVal))
    (opportunity : Option OppRecord) :
    (∃ e, buildOpportunity cfg secure genUrl rnd users nextUserId nextOppId
        data opportunity = Except.error e) ∨
    (∃ ce f, dictGet data "contact_email" = Option.some ce ∧
      dictGet (dictErase data "contact_email") "document"
        = Option.some (PyVal.file f)) := by
  cases hce : dictGet data "contact_email" with
  | none => exact Or.inl ⟨PyErr.keyError, by simp only [buildOpportunity, hce]⟩
  | some ce =>
    cases hdv : dictGet (dictErase data "contact_email") "document" with
    | none =>
      refine Or.inl ⟨PyErr.attributeError, ?_⟩
      simp only [buildOpportunity, hce, hdv, Option.getD_none]
      rfl
    | some v =>
      cases v with
      | file f => exact Or.inr ⟨ce, f, rfl, rfl⟩
      | none =>
        refine Or.inl ⟨PyErr.attributeError, ?_⟩
        simp only [buildOpportunity, hce, hdv, Option.getD_some]
        rfl
      | str s =>
        refine Or.inl ⟨PyErr.attributeError, ?_⟩
        simp only [buildOpportunity, hce, hdv, Option.getD_some]
        rfl
      | nat n =>
        refine Or.inl ⟨PyErr.attributeError, ?_⟩
        simp only [buildOpportunity, hce, hdv, Option.getD_some]
        rfl

/-- C9: whenever the build/update operation returns, the data mapping it
hands back no longer contains `contact_email`, carries `contact_id`,
`created_by` (the fixed value 1), `document` and `document_href` with the
computed values, and agrees with the input mapping on every other
key. -/
theorem build_opportunity_mutates_data (cfg : Config)
    (secure genUrl : String → String) (rnd : Nat) (users : List User)
    (nextUserId nextOppId : Nat) (data : List (String × PyVal))
    (opportunity : Option OppRecord) (users1 : List User)
    (data2 : List (String × PyVal)) (opp : OppRecord)
    (h : buildOpportunity cfg secure genUrl rnd users nextUserId nextOppId
      data opportunity = Except.ok (users1, data2, opp)) :
    dictGet data2 "contact_email" = Option.none ∧
    (∃ n, dictGet data2 "contact_id" = Option.some (PyVal.nat n)) ∧
    dictGet data2 "created_by" = Option.some (PyVal.nat 1) ∧
    (∃ v, dictGet data2 "document" = Option.some v) ∧
    (∃ v, dictGet data2 "document_href" = Option.some v) ∧
    (∀ k, k ≠ "contact_email" → k ≠ "contact_id" → k ≠ "created_by" →
      k ≠ "document" → k ≠ "document_href" →
      dictGet data2 k = dictGet data k) := by
  rcases buildOpportunity_success_shape cfg secure genUrl rnd users nextUserId
      nextOppId data opportunity with ⟨e, herr⟩ | ⟨ce, f, hce, hdoc⟩
  · rw [herr] at h
    cases h
  · obtain ⟨fn, fp, hup, heq⟩ := buildOpportunity_ok_form cfg secure genUrl rnd
      users nextUserId nextOppId data opportunity ce f hce hdoc
    rw [heq] at h
    injection h with h
    have hd2 : data2
        = mergeDocData (dictErase data "contact_email")
            (resolveContact users nextUserId ce
              (dictErase data "contact_email")).1.id fn fp :=
      (congrArg (fun t : List User × List (String × PyVal) × OppRecord => t.2.1) h).symm
    obtain ⟨g1, g2, g3, g4, g5⟩ := mergeDocData_get (dictErase data "contact_email")
      (resolveContact users nextUserId ce (dictErase data "contact_email")).1.id fn fp
    subst hd2
    refine ⟨?_, ⟨_, g1⟩, g2, ⟨fn, g3⟩, ⟨fp, g4⟩, ?_⟩
    · rw [g5 "contact_email" (by decide) (by decide) (by decide) (by decide),
        dictGet_dictErase_self]
    · intro k hk1 hk2 hk3 hk4 hk5
      rw [g5 k hk2 hk3 hk4 hk5, dictGet_dictErase_ne _ _ _ hk1]

/-- C8 counterexample: a call whose data mapping has no `document` value
(Python `data.get('document', None)` yields `None`) does not return a
persisted opportunity: the upload step raises AttributeError (the same
slip as C1), so the operation errors out. -/
theorem build_opportunity_no_document_fails :
    (buildOpportunity ⟨false, "uploads"⟩ (fun s => s) (fun s => s) 7 [] 5 9
        [("contact_email", PyVal.str "c@x")] Option.none
      = Except.error PyErr.attributeError) ∧
    ¬ ∃ r, buildOpportunity ⟨false, "uploads"⟩ (fun s => s) (fun s => s) 7 [] 5 9
        [("contact_email", PyVal.str "c@x")] Option.none = Except.ok r := by
  refine ⟨rfl, ?_⟩
  rintro ⟨r, hr⟩
  rw [show buildOpportunity ⟨false, "uploads"⟩ (fun s => s) (fun s => s) 7 [] 5 9
      [("contact_email", PyVal.str "c@x")] Option.none
      = Except.error PyErr.attributeError from rfl] at hr
  exact Except.noConfusion hr

/-- C8 (amended to calls whose data carries a `contact_email` key and an
actual file object under `document`): the contact is resolved by email,
a placeholder user with the non-privileged `role_id = 2` being created
when none matches; `contact_id`, `created_by = 1`, and the upload
routing's `document` / `document_href` are merged into the data; the
given record is updated in place, or a new record is inserted; and the
persisted opportunity is returned. -/
theorem build_opportunity_contract (cfg : Config)
    (secure genUrl : String → String) (rnd : Nat) (users : List User)
    (nextUserId nextOppId : Nat) (data : List (String × PyVal))
    (opportunity : Option OppRecord) (ce : PyVal) (f : FileObj)
    (hce : dictGet data "contact_email" = Option.some ce)
    (hdoc : dictGet (dictErase data "contact_email") "document"
      = Option.some (PyVal.file f)) :
    ∃ users1 data2 opp,
      buildOpportunity cfg secure genUrl rnd users nextUserId nextOppId
          data opportunity = Except.ok (users1, data2, opp) ∧
      (∀ u, firstWhere (fun w => w.email == ce) users = Option.some u →
        users1 = users ∧
        dictGet data2 "contact_id" = Option.some (PyVal.nat u.id)) ∧
      (firstWhere (fun w => w.email == ce) users = Option.none →
        users1 = users ++ [⟨nextUserId, ce, 2,
          (dictGet (dictErase data "contact_email") "department").getD PyVal.none⟩] ∧
        dictGet data2 "contact_id" = Option.some (PyVal.nat nextUserId)) ∧
      dictGet data2 "created_by" = Option.some (PyVal.nat 1) ∧
      (∃ fn fp, uploadDocument cfg secure genUrl rnd (PyVal.file f)
            (opportunity.map (fun o => o.id)) = Except.ok (fn, fp) ∧
        dictGet data2 "document" = Option.some fn ∧
        dictGet data2 "document_href" = Option.some fp) ∧
      (∀ o, opportunity = Option.some o →
        opp = ⟨o.id, dictUpdate o.fields data2⟩) ∧
      (opportunity = Option.none → opp = ⟨nextOppId, data2⟩) := by
  obtain ⟨fn, fp, hup, heq⟩ := buildOpportunity_ok_form cfg secure genUrl rnd
    users nextUserId nextOppId data opportunity ce f hce hdoc
  obtain ⟨g1, g2, g3, g4, g5⟩ := mergeDocData_get (dictErase data "contact_email")
    (resolveContact users nextUserId ce (dictErase data "contact_email")).1.id fn fp
  refine ⟨_, _, _, heq, ?_, ?_, g2, ⟨fn, fp, hup, g3, g4⟩, ?_, ?_⟩
  · intro u hu
    constructor
    · simp [resolveContact, hu]
    · rw [g1]
      simp [resolveContact, hu]
  · intro hnone
    constructor
    · simp [resolveContact, hnone]
    · rw [g1]
      simp [resolveContact, hnone]
  · intro o ho
    subst ho
    rfl
  · intro ho
    subst ho
    rfl

/-- Witness for C8 (amended): a concrete update call with an existing
contact user, an attached file and an existing opportunity record. -/
theorem build_opportunity_contract_witness :
    (dictGet [("contact_email", PyVal.str "c@x"), ("document", PyVal.file ⟨"n.pdf"⟩)]
        "contact_email" = Option.some (PyVal.str "c@x")) ∧
    (dictGet (dictErase [("contact_email", PyVal.str "c@x"),
        ("document", PyVal.file ⟨"n.pdf"⟩)] "contact_email") "document"
      = Option.some (PyVal.file ⟨"n.pdf"⟩)) ∧
    ∃ users1 data2 opp,
      buildOpportunity ⟨true, "bucket"⟩ (fun s => s) (fun s => s) 7
          [⟨4, PyVal.str "c@x", 1, PyVal.none⟩] 5 9
          [("contact_email", PyVal.str "c@x"), ("document", PyVal.file ⟨"n.pdf"⟩)]
          (Option.some ⟨3, [("title", PyVal.str "old")]⟩)
        = Except.ok (users1, data2, opp) ∧
      (∀ u, firstWhere (fun w : User => w.email == PyVal.str "c@x")
          ([⟨4, PyVal.str "c@x", 1, PyVal.none⟩] : List User) = Option.some u →
        users1 = ([⟨4, PyVal.str "c@x", 1, PyVal.none⟩] : List User) ∧
        dictGet data2 "contact_id" = Option.some (PyVal.nat u.id)) ∧
      (firstWhere (fun w : User => w.email == PyVal.str "c@x")
          ([⟨4, PyVal.str "c@x", 1, PyVal.none⟩] : List User) = Option.none →
        users1 = ([⟨4, PyVal.str "c@x", 1, PyVal.none⟩] : List User) ++ [⟨5, PyVal.str "c@x", 2,
          (dictGet (dictErase [("contact_email", PyVal.str "c@x"),
            ("document", PyVal.file ⟨"n.pdf"⟩)] "contact_email")
            "department").getD PyVal.none⟩] ∧
        dictGet data2 "contact_id" = Option.some (PyVal.nat 5)) ∧
      dictGet data2 "created_by" = Option.some (PyVal.nat 1) ∧
      (∃ fn fp, uploadDocument ⟨true, "bucket"⟩ (fun s => s) (fun s => s) 7
            (PyVal.file ⟨"n.pdf"⟩)
            ((Option.some (⟨3, [("title", PyVal.str "old")]⟩ : OppRecord)).map
              (fun o => o.id)) = Except.ok (fn, fp) ∧
        dictGet data2 "document" = Option.some fn ∧
        dictGet data2 "document_href" = Option.some fp) ∧
      (∀ o, Option.some (⟨3, [("title", PyVal.str "old")]⟩ : OppRecord)
          = Option.some o → opp = ⟨o.id, dictUpdate o.fields data2⟩) ∧
      (Option.some (⟨3, [("title", PyVal.str "old")]⟩ : OppRecord) = Option.none →
        opp = ⟨9, data2⟩) :=
  ⟨rfl, rfl, build_opportunity_contract ⟨true, "bucket"⟩ (fun s => s) (fun s => s) 7
    [⟨4, PyVal.str "c@x", 1, PyVal.none⟩] 5 9
    [("contact_email", PyVal.str "c@x"), ("document", PyVal.file ⟨"n.pdf"⟩)]
    (Option.some ⟨3, [("title", PyVal.str "old")]⟩) (PyVal.str "c@x") ⟨"n.pdf"⟩
    rfl rfl⟩

/-- Witness for C9: a concrete successful create call; the returned data
mapping has dropped `contact_email`, gained the four computed keys, and
kept `title` unchanged. -/
theorem build_opportunity_mutates_data_witness :
    (buildOpportunity ⟨false, "up"⟩ (fun s => s) (fun s => s) 7 [] 5 9
        [("contact_email", PyVal.str "c@x"), ("title", PyVal.str "t"),
         ("document", PyVal.file ⟨"a.pdf"⟩)] Option.none
      = Except.ok ([⟨5, PyVal.str "c@x", 2, PyVal.none⟩],
          [("title", PyVal.str "t"), ("document", PyVal.str "a.pdf"),
           ("contact_id", PyVal.nat 5), ("created_by", PyVal.nat 1),
           ("document_href", PyVal.str "up/a.pdf")],
          ⟨9, [("title", PyVal.str "t"), ("document", PyVal.str "a.pdf"),
           ("contact_id", PyVal.nat 5), ("created_by", PyVal.nat 1),
           ("document_href", PyVal.str "up/a.pdf")]⟩)) ∧
    (dictGet [("title", PyVal.str "t"), ("document", PyVal.str "a.pdf"),
        ("contact_id", PyVal.nat 5), ("created_by", PyVal.nat 1),
        ("document_href", PyVal.str "up/a.pdf")] "contact_email" = Option.none) ∧
    (dictGet [("title", PyVal.str "t"), ("document", PyVal.str "a.pdf"),
        ("contact_id", PyVal.nat 5), ("created_by", PyVal.nat 1),
        ("document_href", PyVal.str "up/a.pdf")] "created_by"
      = Option.some (PyVal.nat 1)) ∧
    (dictGet [("title", PyVal.str "t"), ("document", PyVal.str "a.pdf"),
        ("contact_id", PyVal.nat 5), ("created_by", PyVal.nat 1),
        ("document_href", PyVal.str "up/a.pdf")] "title"
      = dictGet [("contact_email", PyVal.str "c@x"), ("title", PyVal.str "t"),
          ("document", PyVal.file ⟨"a.pdf"⟩)] "title") :=
  ⟨rfl,
   (build_opportunity_mutates_data ⟨false, "up"⟩ (fun s => s) (fun s => s) 7 [] 5 9
     [("contact_email", PyVal.str "c@x"), ("title", PyVal.str "t"),
      ("document", PyVal.file ⟨"a.pdf"⟩)] Option.none
     [⟨5, PyVal.str "c@x", 2, PyVal.none⟩]
     [("title", PyVal.str "t"), ("document", PyVal.str "a.pdf"),
      ("contact_id", PyVal.nat 5), ("created_by", PyVal.nat 1),
      ("document_href", PyVal.str "up/a.pdf")]
     ⟨9, [("title", PyVal.str "t"), ("document", PyVal.str "a.pdf"),
      ("contact_id", PyVal.nat 5), ("created_by", PyVal.nat 1),
      ("document_href", PyVal.str "up/a.pdf")]⟩ rfl).1,
   (build_opportunity_mutates_data ⟨false, "up"⟩ (fun s => s) (fun s => s) 7 [] 5 9
     [("contact_email", PyVal.str "c@x"), ("title", PyVal.str "t"),
      ("document", PyVal.file ⟨"a.pdf"⟩)] Option.none
     [⟨5, PyVal.str "c@x", 2, PyVal.none⟩]
     [("title", PyVal.str "t"), ("document", PyVal.str "a.pdf"),
      ("contact_id", PyVal.nat 5), ("created_by", PyVal.nat 1),
      ("document_href", PyVal.str "up/a.pdf")]
     ⟨9, [("title", PyVal.str "t"), ("document", PyVal.str "a.pdf"),
      ("contact_id", PyVal.nat 5), ("created_by", PyVal.nat 1),
      ("document_href", PyVal.str "up/a.pdf")]⟩ rfl).2.2.1,
   (build_opportunity_mutates_data ⟨false, "up"⟩ (fun s => s) (fun s => s) 7 [] 5 9
     [("contact_email", PyVal.str "c@x"), ("title", PyVal.str "t"),
      ("document", PyVal.file ⟨"a.pdf"⟩)] Option.none
     [⟨5, PyVal.str "c@x", 2, PyVal.none⟩]
     [("title", PyVal.str "t"), ("document", PyVal.str "a.pdf"),
      ("contact_id", PyVal.nat 5), ("created_by", PyVal.nat 1),
      ("document_href", PyVal.str "up/a.pdf")]
     ⟨9, [("title", PyVal.str "t"), ("document", PyVal.str "a.pdf"),
      ("contact_id", PyVal.nat 5), ("created_by", PyVal.nat 1),
      ("document_href", PyVal.str "up/a.pdf")]⟩ rfl).2.2.2.2.2 "title"
     (by decide) (by decide) (by decide) (by decide) (by decide)⟩

end Beacon
